import Mathlib

/-!
Verification of the Vantage7 orchestration core: a shallow embedding of the
retry/fallback call wrapper (src/services/geminiService.ts), the workflow
orchestration in src/App.tsx (deep multi-agent, comparison, update, delete),
and the session persistence layer (storageService), together with theorems
settling the specified properties.
-/

deriving instance DecidableEq for Except

namespace Vantage7

/-- Substring containment on character lists: `hasSubSeq l p` holds when `p`
occurs contiguously inside `l`.  Mirrors JavaScript `String.includes`. -/
def hasSubSeq (l p : List Char) : Bool :=
  if p.isPrefixOf l then true
  else
    match l with
    | [] => false
    | _ :: cs => hasSubSeq cs p

/-- JavaScript `s.includes(pat)`. -/
def strIncludes (s pat : String) : Bool :=
  hasSubSeq s.data pat.data

/-- Classification used by `withRetry` in geminiService.ts:
`error?.message?.includes('RESOURCE_EXHAUSTED') || ...('429') || ...('rate limit')`. -/
def isRateLimitMsg (m : String) : Bool :=
  strIncludes m "RESOURCE_EXHAUSTED" || strIncludes m "429" || strIncludes m "rate limit"

/-- The enhanced quota message `withRetry` substitutes for RESOURCE_EXHAUSTED errors. -/
def quotaEnhancedMsg : String :=
  "Quota Exceeded: You've hit the free tier limit for today. Try again tomorrow or upgrade."

/-- Observable trace of one `withRetry` invocation: the final result, the number
of underlying calls issued, and the backoff delays (in ms) that were slept. -/
structure RetryTrace (α : Type) where
  result : Except String α
  calls : Nat
  delays : List Nat
deriving Repr

/-- Loop body of `withRetry` (geminiService.ts).  The underlying call is a
function from the attempt index to its outcome.  `fuel` counts the remaining
loop iterations (initially `maxRetries + 1`), making the JS `for` loop
structurally recursive; when fuel runs out the loop exits and
`'Max retries exceeded'` is thrown (unreachable in fact, as in the JS). -/
def withRetryAux {α : Type} (fn : Nat → Except String α) (maxRetries baseDelayMs : Nat) :
    Nat → Nat → Nat → List Nat → RetryTrace α
  | 0, _, calls, delays => ⟨.error "Max retries exceeded", calls, delays⟩
  | fuel + 1, attempt, calls, delays =>
    match fn attempt with
    | .ok v => ⟨.ok v, calls + 1, delays⟩
    | .error msg =>
      if isRateLimitMsg msg && decide (attempt < maxRetries) then
        withRetryAux fn maxRetries baseDelayMs fuel (attempt + 1)
          (calls + 1) (delays ++ [baseDelayMs * 2 ^ attempt])
      else if strIncludes msg "RESOURCE_EXHAUSTED" then
        ⟨.error quotaEnhancedMsg, calls + 1, delays⟩
      else
        ⟨.error msg, calls + 1, delays⟩

/-- Function `withRetry` from geminiService.ts (defaults there: `maxRetries = 3`,
`baseDelayMs = 2000`): retry rate-limited failures with delay
`baseDelayMs * 2^attempt`, rethrowing other errors (RESOURCE_EXHAUSTED ones
with an enhanced message). -/
def withRetry {α : Type} (fn : Nat → Except String α) (maxRetries baseDelayMs : Nat) :
    RetryTrace α :=
  withRetryAux fn maxRetries baseDelayMs (maxRetries + 1) 0 0 []

/-- The number of calls made by the retry loop is bounded by the fuel. -/
theorem withRetryAux_calls_le {α : Type} (fn : Nat → Except String α)
    (maxRetries baseDelayMs : Nat) :
    ∀ fuel attempt calls delays,
      (withRetryAux fn maxRetries baseDelayMs fuel attempt calls delays).calls ≤ calls + fuel := by
  intro fuel
  induction fuel with
  | zero => intro attempt calls delays; simp [withRetryAux]
  | succ n ih =>
    intro attempt calls delays
    rw [withRetryAux]
    cases h : fn attempt with
    | ok v => simp
    | error msg =>
      by_cases hc : (isRateLimitMsg msg && decide (attempt < maxRetries)) = true
      · simp only [hc, if_true]
        have := ih (attempt + 1) (calls + 1) (delays ++ [baseDelayMs * 2 ^ attempt])
        omega
      · simp only [Bool.not_eq_true] at hc
        simp only [hc, Bool.false_eq_true, if_false]
        by_cases hq : strIncludes msg "RESOURCE_EXHAUSTED" = true
        · simp [hq]
        · simp only [Bool.not_eq_true] at hq
          simp [hq]

/-- Total calls made by `withRetry` never exceed `maxRetries + 1`. -/
theorem withRetry_calls_le {α : Type} (fn : Nat → Except String α)
    (maxRetries baseDelayMs : Nat) :
    (withRetry fn maxRetries baseDelayMs).calls ≤ maxRetries + 1 := by
  have := withRetryAux_calls_le fn maxRetries baseDelayMs (maxRetries + 1) 0 0 []
  simpa [withRetry] using this

/-- JavaScript `s.toUpperCase()` (ASCII-relevant part): uppercase every
character. -/
def jsToUpperCase (s : String) : String :=
  ⟨s.data.map Char.toUpper⟩

/-! ## Engine catalog (src/types.ts, src/constants.ts) -/

/-- The closed set of engine identifiers (src/types.ts `EngineId`). -/
inductive EngineId where
  | planner | librarian | business | quant | forensic | valuation
  | technical | updater | synthesizer | linkedin | custom | comprehensive
deriving DecidableEq, Repr

/-- Display names from `ENGINE_CONFIGS` in src/constants.ts. -/
def engineName : EngineId → String
  | .planner => "Engine 1: The Lead Strategist"
  | .librarian => "Engine 2: The Data Hunter"
  | .business => "Engine 3A: The Business Analyst"
  | .quant => "Engine 3B: The Fund Manager"
  | .forensic => "Engine 3C: The Forensic Auditor"
  | .valuation => "Engine 3D: The Valuer"
  | .technical => "Engine 3E: The Trader"
  | .updater => "Engine 4: The Sentinel"
  | .linkedin => "Engine 5: The Influencer"
  | .synthesizer => "Engine 6: The Synthesizer"
  | .custom => "Engine 7: Custom Hypothesis"
  | .comprehensive => "Engine 8: The Deep Analyzer (Single Shot)"

/-- Token usage (src/types.ts `TokenUsage`). -/
structure TokenUsage where
  promptTokenCount : Nat
  candidatesTokenCount : Nat
  totalTokenCount : Nat
deriving DecidableEq, Repr

/-- A web citation (src/types.ts `WebSource`). -/
structure WebSource where
  uri : String
  title : String
deriving DecidableEq, Repr

/-- Normalized model response (geminiService.ts `EngineResponse`). -/
structure EngineResponse where
  text : String
  usage : Option TokenUsage
  sources : List WebSource
deriving DecidableEq, Repr

/-! ## runEngine: quota fallback (src/services/geminiService.ts) -/

/-- Constant `FALLBACK_MODEL` in geminiService.ts. -/
def FALLBACK_MODEL : String := "gemini-2.5-flash"

/-- Quota classification in `runEngine`'s catch block:
`'429' || 'Quota' || 'RESOURCE_EXHAUSTED' || 'rate limit'`. -/
def isQuotaErrorMsg (m : String) : Bool :=
  strIncludes m "429" || strIncludes m "Quota" ||
    strIncludes m "RESOURCE_EXHAUSTED" || strIncludes m "rate limit"

/-- Marker prepended to the fallback result's text in `runEngine`. -/
def fallbackMarker : String :=
  "[⚡ Auto-switched to Gemini 2.5 Flash due to quota limits]\n\n"

/-- Error surfaced when both primary and fallback models are exhausted. -/
def bothModelsMsg : String :=
  "Gemini Quota Exceeded on both models. Please try again tomorrow."

/-- Error surfaced when the quota is exhausted and no distinct fallback exists. -/
def singleQuotaMsg : String :=
  "Gemini Quota Exceeded. Please try again tomorrow."

/-- Helper `callGemini` inside `runEngine`: one full attempt against `modelId`,
wrapping the underlying `generateContent` call in `withRetry` with the default
parameters (3 retries, 2000 ms base).  `provider modelId attempt` is the
outcome of the `attempt`-th raw call against `modelId`. -/
def callGemini (provider : String → Nat → Except String EngineResponse)
    (modelId : String) : RetryTrace EngineResponse :=
  withRetry (provider modelId) 3 2000

/-- The execute-with-auto-fallback logic of `runEngine` (geminiService.ts):
try the primary model; on a quota-classified failure with a primary model
distinct from `FALLBACK_MODEL`, make exactly one further `callGemini` against
the fallback, prefixing its text with `fallbackMarker` on success and
surfacing `bothModelsMsg` if it too fails.  Returns the result together with
the list of models attempted (each entry one full `callGemini` invocation). -/
def runEngineExec (provider : String → Nat → Except String EngineResponse)
    (primaryModel : String) : Except String EngineResponse × List String :=
  match (callGemini provider primaryModel).result with
  | .ok r => (.ok r, [primaryModel])
  | .error msg =>
    if isQuotaErrorMsg msg && decide (primaryModel ≠ FALLBACK_MODEL) then
      match (callGemini provider FALLBACK_MODEL).result with
      | .ok r => (.ok { r with text := fallbackMarker ++ r.text }, [primaryModel, FALLBACK_MODEL])
      | .error _ => (.error bothModelsMsg, [primaryModel, FALLBACK_MODEL])
    else if isQuotaErrorMsg msg then
      (.error singleQuotaMsg, [primaryModel])
    else
      (.error msg, [primaryModel])

/-- One successful iteration of the retry loop returns immediately. -/
theorem withRetryAux_step_ok {α : Type} {fn : Nat → Except String α} {v : α}
    (maxRetries baseDelayMs fuel attempt calls : Nat) (delays : List Nat)
    (h : fn attempt = .ok v) :
    withRetryAux fn maxRetries baseDelayMs (fuel + 1) attempt calls delays
      = ⟨.ok v, calls + 1, delays⟩ := by
  rw [withRetryAux, h]

/-- One rate-limited iteration (below the retry cap) sleeps
`baseDelayMs * 2^attempt` and continues with the next attempt. -/
theorem withRetryAux_step_retry {α : Type} {fn : Nat → Except String α} {m : String}
    (maxRetries baseDelayMs fuel attempt calls : Nat) (delays : List Nat)
    (h : fn attempt = .error m) (hr : isRateLimitMsg m = true) (ha : attempt < maxRetries) :
    withRetryAux fn maxRetries baseDelayMs (fuel + 1) attempt calls delays
      = withRetryAux fn maxRetries baseDelayMs fuel (attempt + 1) (calls + 1)
          (delays ++ [baseDelayMs * 2 ^ attempt]) := by
  rw [withRetryAux, h]
  simp [hr, ha]

/-- C2: with the default parameters (3 additional retries, 2000 ms base), if
the underlying call fails rate-limited on attempts 0 and 1 and succeeds on
attempt 2, `withRetry` returns that success having made exactly 3 underlying
calls with backoff delays `2000 * 2^0` and `2000 * 2^1` ms; moreover for any
underlying call the number of calls is bounded by `3 + 1` (at most 3
additional attempts). -/
theorem claim_C2_withRetry_two_ratelimits_then_success {α : Type}
    (fn : Nat → Except String α) (m0 m1 : String) (v : α)
    (h0 : fn 0 = .error m0) (h0r : isRateLimitMsg m0 = true)
    (h1 : fn 1 = .error m1) (h1r : isRateLimitMsg m1 = true)
    (h2 : fn 2 = .ok v) :
    withRetry fn 3 2000 = ⟨.ok v, 3, [2000 * 2 ^ 0, 2000 * 2 ^ 1]⟩ ∧
      ∀ g : Nat → Except String α, (withRetry g 3 2000).calls ≤ 3 + 1 := by
  refine ⟨?_, fun g => withRetry_calls_le g 3 2000⟩
  show withRetryAux fn 3 2000 (3 + 1) 0 0 [] = _
  rw [withRetryAux_step_retry 3 2000 3 0 0 [] h0 h0r (by norm_num)]
  show withRetryAux fn 3 2000 (2 + 1) 1 1 [2000] = _
  rw [withRetryAux_step_retry 3 2000 2 1 1 [2000] h1 h1r (by norm_num)]
  show withRetryAux fn 3 2000 (1 + 1) 2 2 [2000, 4000] = _
  rw [withRetryAux_step_ok 3 2000 1 2 2 [2000, 4000] h2]
  norm_num

/-- Witness for C2 at a concrete stub failing with "429" twice then succeeding. -/
theorem claim_C2_witness :
    withRetry (fun n => if n < 2 then Except.error "429" else Except.ok "done") 3 2000
      = ⟨Except.ok "done", 3, [2000 * 2 ^ 0, 2000 * 2 ^ 1]⟩ ∧
      ∀ g : Nat → Except String String, (withRetry g 3 2000).calls ≤ 3 + 1 :=
  claim_C2_withRetry_two_ratelimits_then_success
    (fun n => if n < 2 then Except.error "429" else Except.ok "done")
    "429" "429" "done" rfl (by decide) rfl (by decide) rfl

/-- C3: if the primary model's full attempt fails with a quota-classified
error and the primary model differs from the fallback model, then exactly one
further full attempt (its own `withRetry` loop) is made against the fallback:
the attempted-model trace is `[primary, fallback]`; a successful fallback
returns its text prefixed with the visible fallback marker, and a failing
fallback surfaces the distinct both-models-exhausted message, which differs
from the generic quota message. -/
theorem claim_C3_quota_fallback
    (provider : String → Nat → Except String EngineResponse)
    (primaryModel : String) (m : String)
    (hp : (callGemini provider primaryModel).result = .error m)
    (hq : isQuotaErrorMsg m = true)
    (hne : primaryModel ≠ FALLBACK_MODEL) :
    (runEngineExec provider primaryModel).2 = [primaryModel, FALLBACK_MODEL] ∧
    (∀ r : EngineResponse, (callGemini provider FALLBACK_MODEL).result = .ok r →
      (runEngineExec provider primaryModel).1 = .ok { r with text := fallbackMarker ++ r.text }) ∧
    (∀ e : String, (callGemini provider FALLBACK_MODEL).result = .error e →
      (runEngineExec provider primaryModel).1 = .error bothModelsMsg) ∧
    bothModelsMsg ≠ singleQuotaMsg := by
  cases hfb : (callGemini provider FALLBACK_MODEL).result with
  | ok r0 =>
    refine ⟨by simp [runEngineExec, hp, hfb, hq, hne], ?_, ?_, by decide⟩
    · intro r hr
      have hr0 : r0 = r := by injection hr
      subst hr0
      simp [runEngineExec, hp, hfb, hq, hne]
    · intro e he
      exact absurd he (by simp)
  | error e0 =>
    refine ⟨by simp [runEngineExec, hp, hfb, hq, hne], ?_, ?_, by decide⟩
    · intro r hr
      exact absurd hr (by simp)
    · intro e he
      simp [runEngineExec, hp, hfb, hq, hne]

/-- Witness for C3: quota failure on the primary "gemini-3-flash-preview",
success on the fallback. -/
theorem claim_C3_witness :
    (runEngineExec
        (fun model _ => if model = "gemini-3-flash-preview"
          then Except.error "429"
          else Except.ok ⟨"ok", none, []⟩)
        "gemini-3-flash-preview").2 = ["gemini-3-flash-preview", FALLBACK_MODEL] ∧
    (∀ r : EngineResponse,
      (callGemini
          (fun model _ => if model = "gemini-3-flash-preview"
            then Except.error "429"
            else Except.ok ⟨"ok", none, []⟩)
          FALLBACK_MODEL).result = .ok r →
      (runEngineExec
          (fun model _ => if model = "gemini-3-flash-preview"
            then Except.error "429"
            else Except.ok ⟨"ok", none, []⟩)
          "gemini-3-flash-preview").1 = .ok { r with text := fallbackMarker ++ r.text }) ∧
    (∀ e : String,
      (callGemini
          (fun model _ => if model = "gemini-3-flash-preview"
            then Except.error "429"
            else Except.ok ⟨"ok", none, []⟩)
          FALLBACK_MODEL).result = .error e →
      (runEngineExec
          (fun model _ => if model = "gemini-3-flash-preview"
            then Except.error "429"
            else Except.ok ⟨"ok", none, []⟩)
          "gemini-3-flash-preview").1 = .error bothModelsMsg) ∧
    bothModelsMsg ≠ singleQuotaMsg :=
  claim_C3_quota_fallback
    (fun model _ => if model = "gemini-3-flash-preview"
      then Except.error "429"
      else Except.ok ⟨"ok", none, []⟩)
    "gemini-3-flash-preview" "429" rfl (by decide) (by decide)

/-! ## Deep multi-agent workflow (src/App.tsx, handleAnalyze, deep branch) -/

/-- The specialist fan-out order in handleAnalyze (`workerIds`). -/
def workerIds : List EngineId :=
  [.business, .quant, .forensic, .valuation, .technical, .custom]

/-- A specialist failure is substituted inline:
`workerResults.push({ id, result: ` [Analysis Failed: ${message}] ` })`. -/
def failureMarker (msg : String) : String :=
  "[Analysis Failed: " ++ msg ++ "]"

/-- The specialists loop: each worker runs against the shared context; a
failure is caught locally and replaced by the failure marker string. -/
def specialistResults (stub : EngineId → Option String → Except String String)
    (sharedContext : String) : List (EngineId × String) :=
  workerIds.map fun id =>
    match stub id (some sharedContext) with
    | .ok t => (id, t)
    | .error e => (id, failureMarker e)

/-- Synthesis input: tagged reports of the workers whose result does not carry
the failure marker, joined with newlines (handleAnalyze, step 4). -/
def synthesisContext (workerResults : List (EngineId × String)) : String :=
  String.intercalate "\n"
    ((workerResults.filter fun r => !(strIncludes r.2 "[Analysis Failed")).map
      fun r => "--- REPORT FROM " ++ engineName r.1 ++ " ---\n" ++ r.2 ++ "\n")

/-- Observable outcome of one deep-workflow run: final result (the thrown
error, if any, escapes to the surrounding catch), engines invoked in order,
and the collected worker results. -/
structure DeepRun where
  result : Except String String
  invoked : List EngineId
  workerResults : List (EngineId × String)
deriving Repr

/-- Deep multi-agent branch of handleAnalyze (src/App.tsx): Planner, then
Librarian (with the planner strategy as context), then the six specialists
sequentially against the shared context (each failure isolated via the
failure marker), then — unconditionally — the Synthesizer over the
concatenated successful reports.  `stub id ctx` is the outcome of
`runEngine(id, …, ctx, …)`.  The 15 s inter-call sleeps have no observable
effect on this state and are not recorded. -/
def deepWorkflow (stub : EngineId → Option String → Except String String) : DeepRun :=
  match stub .planner none with
  | .error e => ⟨.error e, [.planner], []⟩
  | .ok plannerText =>
    match stub .librarian (some ("PLANNER STRATEGY:\n" ++ plannerText)) with
    | .error e => ⟨.error e, [.planner, .librarian], []⟩
    | .ok librarianText =>
      let sharedContext :=
        "PLANNER STRATEGY:\n" ++ plannerText ++ "\n\nLIBRARIAN DATA DOSSIER:\n" ++ librarianText
      let workerResults := specialistResults stub sharedContext
      match stub .synthesizer (some (synthesisContext workerResults)) with
      | .error e => ⟨.error e, [.planner, .librarian] ++ workerIds ++ [.synthesizer], workerResults⟩
      | .ok t => ⟨.ok t, [.planner, .librarian] ++ workerIds ++ [.synthesizer], workerResults⟩

/-- A stub run on which every specialist fails while planner, librarian and
synthesizer succeed. -/
def allSpecialistsFailStub : EngineId → Option String → Except String String :=
  fun id _ =>
    match id with
    | .planner => .ok "plan"
    | .librarian => .ok "data"
    | .synthesizer => .ok "final"
    | _ => .error "boom"

/-- C1 counterexample: in a deep run where zero of the six specialists
succeed (fewer than the claimed quorum of 3), the Synthesizer is nonetheless
invoked and the run completes successfully — no abort happens. -/
theorem claim_C1_counterexample :
    ((deepWorkflow allSpecialistsFailStub).workerResults.countP
        fun r => !(strIncludes r.2 "[Analysis Failed")) = 0
    ∧ EngineId.synthesizer ∈ (deepWorkflow allSpecialistsFailStub).invoked
    ∧ (deepWorkflow allSpecialistsFailStub).result = Except.ok "final" := by
  decide

/-- C1 amended: the deep workflow applies no quorum check.  Whenever the
Planner and Librarian stages succeed, the Synthesizer stage is invoked after
the six specialists regardless of how many of them succeeded, with the failed
ones' outputs excluded from (and the successful ones' tagged reports included
in) its input context. -/
theorem claim_C1_amended (stub : EngineId → Option String → Except String String)
    (p l : String)
    (hp : stub .planner none = .ok p)
    (hl : stub .librarian (some ("PLANNER STRATEGY:\n" ++ p)) = .ok l) :
    (deepWorkflow stub).invoked
      = [.planner, .librarian] ++ workerIds ++ [.synthesizer] := by
  simp only [deepWorkflow, hp, hl]
  cases hs : stub EngineId.synthesizer (some (synthesisContext (specialistResults stub
      ("PLANNER STRATEGY:\n" ++ p ++ "\n\nLIBRARIAN DATA DOSSIER:\n" ++ l)))) with
  | error e => simp [hs]
  | ok t => simp [hs]

/-- Witness for C1 amended at a concrete stub. -/
theorem claim_C1_amended_witness :
    (deepWorkflow allSpecialistsFailStub).invoked
      = [.planner, .librarian] ++ workerIds ++ [.synthesizer] :=
  claim_C1_amended allSpecialistsFailStub "plan" "data" rfl rfl

/-! ## Engine run state and session records (src/types.ts) -/

/-- Values of `EngineStatus.status`. -/
inductive RunState where
  | idle | loading | success | error
deriving DecidableEq, Repr

/-- src/types.ts `EngineStatus` (one run slot per engine). -/
structure EngineStatus where
  id : EngineId
  name : String
  role : String
  status : RunState
  result : Option String
  errorMsg : Option String
  usage : Option TokenUsage
  sources : List WebSource

/-- Roles from `ENGINE_CONFIGS` in src/constants.ts. -/
def engineRole : EngineId → String
  | .planner => "Sector Identification & Strategy Formulation"
  | .librarian => "Deep Research & Fact Gathering"
  | .business => "Moat & Opportunity Analysis"
  | .quant => "Financial Health & Growth"
  | .forensic => "Risk & Governance Check"
  | .valuation => "Fair Value Assessment"
  | .technical => "Price Action & Momentum"
  | .updater => "New News & Quarterly Updates"
  | .linkedin => "LinkedIn Post Generator"
  | .synthesizer => "Final Report Generation"
  | .custom => "User Query Resolution"
  | .comprehensive => "Full Spectrum Analysis"

/-- All engine ids, in the catalog's order (`Object.keys(ENGINE_CONFIGS)`). -/
def allEngineIds : List EngineId :=
  [.planner, .librarian, .business, .quant, .forensic, .valuation,
   .technical, .updater, .linkedin, .synthesizer, .custom, .comprehensive]

/-- Function `buildInitialState` (src/App.tsx): every engine slot idle with no result. -/
def buildInitialState : EngineId → EngineStatus := fun id =>
  { id := id, name := engineName id, role := engineRole id, status := .idle,
    result := none, errorMsg := none, usage := none, sources := [] }

/-- src/types.ts `AnalysisSession` as produced by `saveSession` (there
`verdict` and `summary` are always set). -/
structure AnalysisSession where
  id : String
  symbol : String
  timestamp : Nat
  engines : EngineId → EngineStatus
  totalTokens : Nat
  verdict : String
  summary : String

/-! ## ReportMetadataExtractor (storageService `extractMetadata`) -/

/-- JS `\s` on a single line (ASCII part; newlines are handled by the
line split). -/
def isJsSpace (c : Char) : Bool :=
  c = ' ' || c = '\t' || c = '\r' || c = '\x0b' || c = '\x0c'

/-- Whitespace stripped by JS `trim` (relevant part). -/
def isJsTrimSpace (c : Char) : Bool :=
  isJsSpace c || c = '\n'

/-- JS `s.trim()`. -/
def jsTrim (s : String) : String :=
  ⟨((s.data.dropWhile isJsTrimSpace).reverse.dropWhile isJsTrimSpace).reverse⟩

/-- JS `s.replace(/\*\/g, '')` (all asterisks removed). -/
def removeStars (s : String) : String :=
  ⟨s.data.filter fun c => c ≠ '*'⟩

/-- Split a character list at newline characters (JS `split('\n')` semantics:
the empty string yields one empty line, a trailing newline an empty last
line). -/
def splitLinesAux : List Char → List Char → List String
  | acc, [] => [⟨acc.reverse⟩]
  | acc, c :: cs =>
    if c = '\n' then ⟨acc.reverse⟩ :: splitLinesAux [] cs
    else splitLinesAux (c :: acc) cs

/-- JS `s.split('\n')`. -/
def jsSplitLines (s : String) : List String :=
  splitLinesAux [] s.data

/-- JS `s.startsWith('#')`. -/
def startsWithHash (s : String) : Bool :=
  match s.data with
  | '#' :: _ => true
  | _ => false

/-- Drop everything up to and including the first occurrence of `p` in `l`;
`none` when `p` does not occur (first-match semantics of `String.match`). -/
def afterSubSeq (l p : List Char) : Option (List Char) :=
  if p.isPrefixOf l then some (l.drop p.length)
  else
    match l with
    | [] => none
    | _ :: cs => afterSubSeq cs p

/-- Tail of the regex `/FINAL DECISION:\s*\[?(.*?)\]?$/m` applied after the
marker: skip whitespace, an optional opening bracket, and capture up to an
optional closing bracket at end of line.  (The `||` fallback regex
`/FINAL DECISION:\s*(.*)$/m` in the source can never fire: the first regex
matches whenever the marker occurs.) -/
def verdictCapture (rest : List Char) : List Char :=
  let r1 := rest.dropWhile isJsSpace
  let r2 := match r1 with
    | '[' :: t => t
    | _ => r1
  match r2.getLast? with
  | some ']' => r2.dropLast
  | _ => r2

/-- Tail of the regex `/The "One-Line" Thesis:?\s*(.*)$/m` after the marker:
optional colon, skip whitespace, capture the rest of the line. -/
def thesisCapture (rest : List Char) : List Char :=
  let r1 := match rest with
    | ':' :: t => t
    | _ => rest
  r1.dropWhile isJsSpace

/-- storageService `extractMetadata`: derive `(verdict, summary)` from the
synthesizer slot's result.  The summary fallback mirrors the JS expression
`find(...)?.substring(0, 100) + '...' || ''`: when no content-bearing line
exists, `undefined + '...'` coerces to the string `"undefined..."`, which is
truthy, so the `|| ''` default is unreachable. -/
def extractMetadata (engines : EngineId → EngineStatus) : String × String :=
  let synthResult := (engines .synthesizer).result.getD ""
  let lines := jsSplitLines synthResult
  let verdict :=
    match lines.findSome? (fun l =>
        (afterSubSeq l.data ("FINAL DECISION:".data)).map
          fun rest => String.mk (verdictCapture rest)) with
    | some cap => jsTrim (removeStars cap)
    | none => "ANALYZED"
  let summary :=
    match lines.findSome? (fun l =>
        (afterSubSeq l.data ("The \"One-Line\" Thesis".data)).map
          fun rest => String.mk (thesisCapture rest)) with
    | some cap => jsTrim (removeStars cap)
    | none =>
      match lines.find? (fun l => decide (l.length > 20) && !(startsWithHash l)) with
      | some l => String.mk (l.data.take 100) ++ "..."
      | none => "undefined" ++ "..."
  (verdict, summary)

/-! ## SessionStore (storageService `saveSession` / `deleteSession`) -/

/-- A user id selects the durable (Firestore) backend iff it is present and
not the demo sentinel (`userId && userId !== 'demo-mode-user'`). -/
def isDurableUser : Option String → Bool
  | some uid => decide (uid ≠ "demo-mode-user")
  | none => false

/-- storageService `saveSession`.  `now` stands for `Date.now()`;
`localSessions` is the deserialized local list; `ioFails` models the
surrounding try/catch (a backend I/O failure returns `null` and leaves the
local list unchanged).  The session id is `existingId || Date.now().toString()`
— note `||`, not `??`: an empty-string `existingId` is falsy and gets a fresh
timestamp id.  Returns the produced session (if any) and the resulting local
list (the durable backend does not touch the local list). -/
def saveSession (userId : Option String) (symbol : String)
    (engines : EngineId → EngineStatus) (existingId : Option String)
    (now : Nat) (localSessions : List AnalysisSession) (ioFails : Bool) :
    Option AnalysisSession × List AnalysisSession :=
  if ioFails then (none, localSessions)
  else
    let totalTokens := (allEngineIds.map fun i =>
      ((engines i).usage.map TokenUsage.totalTokenCount).getD 0).sum
    let meta := extractMetadata engines
    let id := match existingId with
      | some s => if s = "" then toString now else s
      | none => toString now
    let newSession : AnalysisSession :=
      { id := id, symbol := jsToUpperCase symbol, timestamp := now,
        engines := engines, totalTokens := totalTokens,
        verdict := meta.1, summary := meta.2 }
    let newLocals :=
      if isDurableUser userId then localSessions
      else
        let sessions :=
          match localSessions.findIdx? (fun s => decide (s.id = id)) with
          | some idx => localSessions.set idx newSession
          | none => newSession :: localSessions
        if sessions.length > 20 then sessions.dropLast else sessions
    (some newSession, newLocals)

/-- C5 (code bug evidence): at the failing input — no synthesizer result, so
both markers are missing and no content-bearing line exists — the extractor's
verdict defaults to "ANALYZED" as specified, but the summary is the string
"undefined..." (the JS coercion of `undefined + '...'`), not the empty string
the design intends with its dead `|| ''` fallback. -/
theorem claim_C5_divergence :
    extractMetadata buildInitialState = ("ANALYZED", "undefined...") ∧
    "undefined..." ≠ "" := by
  decide

/-- C7 counterexample: `saveSession` called *with* an existingId argument —
the empty string — produces a session whose id is the fresh timestamp id
`"5"`, not the supplied existingId (JS `existingId || Date.now().toString()`
treats `""` as falsy). -/
theorem claim_C7_counterexample :
    ((saveSession none "RELIANCE" buildInitialState (some "") 5 [] false).1).map
        AnalysisSession.id = some "5" ∧
    "5" ≠ "" := by
  decide

/-- C7 amended: for every call to `saveSession` with a *nonempty* existingId,
the produced session's id equals that existingId; a fresh identity (the
timestamp string) is assigned when existingId is absent. -/
theorem claim_C7_amended (userId : Option String) (symbol : String)
    (engines : EngineId → EngineStatus) (eid : String) (now : Nat)
    (locals : List AnalysisSession) (hne : eid ≠ "") :
    ((saveSession userId symbol engines (some eid) now locals false).1).map
        AnalysisSession.id = some eid ∧
    ∀ (uid2 : Option String) (sym2 : String) (eng2 : EngineId → EngineStatus)
      (now2 : Nat) (locals2 : List AnalysisSession),
      ((saveSession uid2 sym2 eng2 none now2 locals2 false).1).map
          AnalysisSession.id = some (toString now2) := by
  constructor
  · simp [saveSession, hne]
  · intro uid2 sym2 eng2 now2 locals2
    simp [saveSession]

/-- Witness for C7 amended at a concrete nonempty existingId. -/
theorem claim_C7_witness :
    ((saveSession none "X" buildInitialState (some "abc") 7 [] false).1).map
        AnalysisSession.id = some "abc" ∧
    ∀ (uid2 : Option String) (sym2 : String) (eng2 : EngineId → EngineStatus)
      (now2 : Nat) (locals2 : List AnalysisSession),
      ((saveSession uid2 sym2 eng2 none now2 locals2 false).1).map
          AnalysisSession.id = some (toString now2) :=
  claim_C7_amended none "X" buildInitialState "abc" 7 [] (by decide)

/-- C10: every successful `saveSession` call — regardless of backend, i.e.
for every `userId` — produces (and persists) a session whose symbol is the
whole caller-supplied label uppercased; in particular the connective "vs"
inside a comparison label is uppercased too. -/
theorem claim_C10_save_uppercases_label (userId : Option String) (symbol : String)
    (engines : EngineId → EngineStatus) (existingId : Option String)
    (now : Nat) (locals : List AnalysisSession) :
    ((saveSession userId symbol engines existingId now locals false).1).map
        AnalysisSession.symbol = some (jsToUpperCase symbol) ∧
    jsToUpperCase "HDFCBANK vs ICICIBANK" = "HDFCBANK VS ICICIBANK" := by
  refine ⟨?_, by decide⟩
  cases existingId <;> simp [saveSession]

/-! ## Session deletion with optimistic rollback (src/App.tsx) -/

/-- Function `handleDeleteSession` (src/App.tsx): snapshot the in-memory history,
optimistically remove the session, await the backend delete; on failure
restore the snapshot and set a global error message.  `deleteFails` models
`deleteSession` throwing.  Returns the resulting history and global error. -/
def handleDeleteSession (history : List AnalysisSession) (id : String)
    (deleteFails : Bool) : List AnalysisSession × Option String :=
  let originalHistory := history
  let optimistic := history.filter fun s => decide (s.id ≠ id)
  if deleteFails then (originalHistory, some "Failed to delete session.")
  else (optimistic, none)

/-- C8: if the backend delete call fails after the optimistic removal, the
in-memory history list is restored exactly to its pre-delete contents and
order. -/
theorem claim_C8_delete_rollback (history : List AnalysisSession) (id : String) :
    (handleDeleteSession history id true).1 = history := by
  simp [handleDeleteSession]

/-! ## Grounding-source extraction (geminiService.ts, callGemini) -/

/-- One grounding chunk as inspected by `callGemini`: `chunk.web` may be
absent, and so may its `uri` / `title` fields. -/
structure GroundingChunk where
  web : Option (Option String × Option String)
deriving DecidableEq, Repr

/-- The push condition `if (chunk.web?.uri && chunk.web?.title)`: both fields
present and truthy (nonempty). -/
def chunkSource? (c : GroundingChunk) : Option WebSource :=
  match c.web with
  | some (some u, some t) => if u ≠ "" ∧ t ≠ "" then some ⟨u, t⟩ else none
  | _ => none

/-- The sources loop in `callGemini` (geminiService.ts): push `{uri, title}`
for each chunk whose web uri and title are both present, in order. -/
def extractSources (chunks : List GroundingChunk) : List WebSource :=
  chunks.filterMap chunkSource?

/-- C9 counterexample: two chunks with the same uri are both kept — the
extraction performs no deduplication by uri. -/
theorem claim_C9_counterexample :
    (extractSources [⟨some (some "u", some "t1")⟩, ⟨some (some "u", some "t2")⟩]).map
        WebSource.uri = ["u", "u"] := by
  decide

/-- C9 amended: every entry of the extracted sources list has a nonempty uri
and a nonempty title (chunks lacking either are skipped), but entries are not
deduplicated by uri — duplicates among the provider's grounding chunks are
preserved. -/
theorem claim_C9_amended (chunks : List GroundingChunk) (s : WebSource)
    (hs : s ∈ extractSources chunks) :
    s.uri ≠ "" ∧ s.title ≠ "" := by
  obtain ⟨c, -, hc⟩ := List.mem_filterMap.mp hs
  unfold chunkSource? at hc
  rcases c with ⟨w⟩
  rcases w with - | ⟨u, t⟩
  · simp at hc
  · rcases u with - | u <;> rcases t with - | t
    · simp at hc
    · simp at hc
    · simp at hc
    · change (if u ≠ "" ∧ t ≠ "" then some ⟨u, t⟩ else none) = some s at hc
      by_cases h : u ≠ "" ∧ t ≠ ""
      · rw [if_pos h] at hc
        cases hc
        exact h
      · rw [if_neg h] at hc
        cases hc

/-- Witness for C9 amended at a concrete chunk list. -/
theorem claim_C9_witness :
    (⟨"u", "t"⟩ : WebSource).uri ≠ "" ∧ (⟨"u", "t"⟩ : WebSource).title ≠ "" :=
  claim_C9_amended [⟨some (some "u", some "t")⟩] ⟨"u", "t"⟩ (by decide)

/-! ## Update workflow (src/App.tsx, handleUpdateReport) -/

/-- JS template-literal interpolation of a nullable string: `null` renders as
the text "null". -/
def jsTemplateOpt : Option String → String
  | some s => s
  | none => "null"

/-- The inputs `handleUpdateReport` closes over. -/
structure UpdateEnv where
  currentSessionId : Option String
  isUpdating : Bool
  user : Option String
  engines : EngineId → EngineStatus
  stockSymbol : String
  onlyNewInfo : Bool

/-- Observable outcome of `handleUpdateReport`: the global error message (if
any), the engine calls issued over the network in order, and the resulting
in-memory history. -/
structure UpdateOutcome where
  globalError : Option String
  calls : List EngineId
  history : List AnalysisSession

/-- Function `handleUpdateReport` (src/App.tsx).  Guards: a missing
`currentSessionId` (or an update already in flight) returns silently; a
missing user sets a login error.  Note there is no guard on the previous
synthesized result: `previousSummary = engines.synthesizer.result` is
interpolated into the prompt (as "null" when absent) and the Sentinel
(`updater`) engine is invoked regardless.  `stub id prompt` is the outcome of
`runEngine(id, stockSymbol, undefined, prompt, model)`; `oldReportDate`
stands for the locale-formatted previous-report date. -/
def handleUpdateReport (env : UpdateEnv) (oldReportDate : String)
    (stub : EngineId → String → Except String String)
    (history : List AnalysisSession) (now : Nat)
    (locals : List AnalysisSession) (ioFails : Bool) : UpdateOutcome :=
  if env.currentSessionId.isNone || env.isUpdating then
    { globalError := none, calls := [], history := history }
  else if env.user.isNone then
    { globalError := some "Please login to update reports.", calls := [], history := history }
  else
    let previousSummary := jsTemplateOpt (env.engines .synthesizer).result
    let scopeInstruction :=
      if env.onlyNewInfo then
        "STRICT CONSTRAINT: You are in 'Incremental Mode'. Search for and report ONLY on events, news, and filings released AFTER " ++ oldReportDate ++ ". Do NOT re-analyze old data."
      else
        "BROAD SCOPE: Re-evaluate the company's status. While searching for news since " ++ oldReportDate ++ ", you may also verify if the core thesis still holds against broader market changes found in recent search results."
    let updatePrompt :=
      "LAST ANALYSIS DATE: " ++ oldReportDate ++ "\nPREVIOUS SUMMARY:\n" ++ previousSummary
        ++ "\n\nINSTRUCTION: " ++ scopeInstruction
    match stub .updater updatePrompt with
    | .error e =>
      { globalError := some ("Failed to update report: " ++ e),
        calls := [.updater], history := history }
    | .ok updaterText =>
      let synthesisContextStr :=
        "\n         --- PREVIOUS REPORT (" ++ oldReportDate ++ ") ---\n         "
          ++ previousSummary
          ++ "\n         \n         --- UPDATER ENGINE FINDINGS (Mode: "
          ++ (if env.onlyNewInfo then "Incremental" else "Full Scan") ++ ") ---\n         "
          ++ updaterText ++ "\n       "
      match stub .synthesizer synthesisContextStr with
      | .error e =>
        { globalError := some ("Failed to update report: " ++ e),
          calls := [.updater, .synthesizer], history := history }
      | .ok finalText =>
        let finalEngines : EngineId → EngineStatus := fun id =>
          match id with
          | .updater => { env.engines .updater with
              status := .success, result := some updaterText }
          | .synthesizer => { env.engines .synthesizer with
              status := .success, result := some finalText }
          | other => env.engines other
        match saveSession env.user env.stockSymbol finalEngines
            env.currentSessionId now locals ioFails with
        | (some updatedSession, _) =>
          let history2 :=
            match history.findIdx? (fun s => decide (s.symbol = updatedSession.symbol)) with
            | some idx => history.set idx updatedSession
            | none => updatedSession :: history
          { globalError := none, calls := [.updater, .synthesizer], history := history2 }
        | (none, _) =>
          { globalError := none, calls := [.updater, .synthesizer], history := history }

/-- Env for the C6 counterexample: no current session id. -/
def updEnvNoSession : UpdateEnv :=
  ⟨none, false, some "u1", buildInitialState, "RELIANCE", true⟩

/-- Env for the C6 counterexample: a session id and user are present, but no
previous synthesized result exists. -/
def updEnvNoResult : UpdateEnv :=
  ⟨some "s1", false, some "u1", buildInitialState, "RELIANCE", true⟩

/-- C6 counterexample: (i) invoked with no current session id (the state in
which no previous synthesized result exists), the update workflow reports no
error at all — it silently no-ops — contradicting "returns a fatal error";
(ii) invoked with a session id and user present but no previous synthesized
result, it issues network calls to the Sentinel and Synthesizer engines,
contradicting "issues no network call". -/
theorem claim_C6_counterexample :
    (handleUpdateReport updEnvNoSession "1/1/2025" (fun _ _ => .ok "x") [] 0 [] false).globalError
        = none ∧
    (handleUpdateReport updEnvNoSession "1/1/2025" (fun _ _ => .ok "x") [] 0 [] false).calls
        = [] ∧
    (handleUpdateReport updEnvNoResult "1/1/2025" (fun _ _ => .ok "x") [] 0 [] false).calls
        = [.updater, .synthesizer] := by
  decide

/-- C6 amended: the update workflow does not guard on the presence of a
previous synthesized result.  With no current session id (or an update in
flight) it returns silently — no network call but also no error; with a
session id present and no user it reports the login error without any network
call; with both present it proceeds to invoke the Sentinel (`updater`) engine
even when the previous synthesized result is absent. -/
theorem claim_C6_amended (env : UpdateEnv) (oldReportDate : String)
    (stub : EngineId → String → Except String String)
    (history : List AnalysisSession) (now : Nat)
    (locals : List AnalysisSession) (ioFails : Bool) :
    (env.currentSessionId = none →
      (handleUpdateReport env oldReportDate stub history now locals ioFails).calls = [] ∧
      (handleUpdateReport env oldReportDate stub history now locals ioFails).globalError = none) ∧
    (env.currentSessionId.isSome → env.isUpdating = false → env.user = none →
      (handleUpdateReport env oldReportDate stub history now locals ioFails).calls = [] ∧
      (handleUpdateReport env oldReportDate stub history now locals ioFails).globalError
        = some "Please login to update reports.") ∧
    (env.currentSessionId.isSome → env.isUpdating = false → env.user.isSome →
      EngineId.updater ∈
        (handleUpdateReport env oldReportDate stub history now locals ioFails).calls) := by
  refine ⟨?_, ?_, ?_⟩
  · intro h
    simp [handleUpdateReport, h]
  · intro h1 h2 h3
    rw [Option.isSome_iff_exists] at h1
    obtain ⟨sid, hsid⟩ := h1
    simp [handleUpdateReport, hsid, h2, h3]
  · intro h1 h2 h3
    rw [Option.isSome_iff_exists] at h1
    obtain ⟨sid, hsid⟩ := h1
    rw [Option.isSome_iff_exists] at h3
    obtain ⟨uid, huid⟩ := h3
    simp only [handleUpdateReport, hsid, h2, huid]
    simp only [Option.isNone_none, Option.isNone_some, Bool.or_false,
      Bool.false_eq_true, if_false]
    split
    · simp
    · split
      · simp
      · split
        · simp
        · simp

/-- Witness for C6 amended, applied at the two concrete environments. -/
theorem claim_C6_amended_witness :
    ((handleUpdateReport updEnvNoSession "d" (fun _ _ => .ok "x") [] 0 [] false).calls = [] ∧
      (handleUpdateReport updEnvNoSession "d" (fun _ _ => .ok "x") [] 0 [] false).globalError
        = none) ∧
    EngineId.updater ∈
      (handleUpdateReport updEnvNoResult "d" (fun _ _ => .ok "x") [] 0 [] false).calls :=
  ⟨(claim_C6_amended updEnvNoSession "d" (fun _ _ => .ok "x") [] 0 [] false).1 rfl,
   (claim_C6_amended updEnvNoResult "d" (fun _ _ => .ok "x") [] 0 [] false).2.2
     (by decide) rfl (by decide)⟩

/-! ## Comparison workflow (src/App.tsx, handleAnalyze, "X vs Y" branch) -/

/-- Match the separator `\s+vs\.?\s+` (case-insensitive) at the front of
`cs`, returning the remainder after it. -/
def matchVsSep : List Char → Option (List Char)
  | [] => none
  | c :: cs =>
    if isJsSpace c then
      match cs.dropWhile isJsSpace with
      | v :: s :: r =>
        if (v = 'v' ∨ v = 'V') ∧ (s = 's' ∨ s = 'S') then
          let r2 := match r with
            | '.' :: t => t
            | _ => r
          match r2 with
          | c2 :: r3 => if isJsSpace c2 then some (r3.dropWhile isJsSpace) else none
          | [] => none
        else none
      | _ => none
    else none

/-- The comparison-mode detection regex `/^(.+?)\s+vs\.?\s+(.+)$/i`: the lazy
first group takes the shortest nonempty prefix before a `vs` separator, the
second group the nonempty remainder. -/
def parseVsGo : List Char → List Char → Option (String × String)
  | _, [] => none
  | acc, c :: cs =>
    match matchVsSep (c :: cs) with
    | some r =>
      if acc.isEmpty ∨ r.isEmpty then parseVsGo (c :: acc) cs
      else some (⟨acc.reverse⟩, ⟨r⟩)
    | none => parseVsGo (c :: acc) cs

/-- JS `stockSymbol.match(/^(.+?)\s+vs\.?\s+(.+)$/i)`, returning the two
captured groups.  The scan starts with the first character already consumed
into group 1, since `(.+?)` requires at least one character. -/
def parseVs (s : String) : Option (String × String) :=
  match s.data with
  | [] => none
  | c :: cs => parseVsGo [c] cs

/-- Outcome of the comparison branch: the saved session (if the save
succeeded), the reconciled history, and the new current session id. -/
structure ComparisonOutcome where
  session : Option AnalysisSession
  history : List AnalysisSession
  currentSessionId : Option String

/-- The comparison branch of `handleAnalyze` (src/App.tsx), reached when the
input matches the vs-pattern and quick mode is selected, in the claim's
scenario where both single-subject analyses (`resA`, `resB`) and the
comparison call (`comp`) succeed: build the final engine map, save under the
label `stockA ++ " vs " ++ stockB`, and reconcile the history by filtering
out any entry sharing the new session's id or symbol before prepending it.
`engines0` is the (stale-closure) engines value, `currentSessionId` the
closure value captured at render time. -/
def comparisonFlow (userId : String) (stockSymbol : String)
    (engines0 : EngineId → EngineStatus) (_resA _resB comp : EngineResponse)
    (history : List AnalysisSession) (currentSessionId : Option String)
    (now : Nat) (locals : List AnalysisSession) (ioFails : Bool) :
    Option ComparisonOutcome :=
  match parseVs stockSymbol with
  | none => none
  | some (g1, g2) =>
    let stockA := jsToUpperCase (jsTrim g1)
    let stockB := jsToUpperCase (jsTrim g2)
    let finalEngines : EngineId → EngineStatus := fun id =>
      match id with
      | .planner => { engines0 .planner with
          status := .success, result := some ("Analysis of " ++ stockA ++ " complete") }
      | .librarian => { engines0 .librarian with
          status := .success, result := some ("Analysis of " ++ stockB ++ " complete") }
      | .comprehensive => { engines0 .comprehensive with
          status := .success,
          result := some (stockA ++ " vs " ++ stockB ++ " Head-to-Head"),
          usage := comp.usage, sources := comp.sources }
      | .synthesizer => { engines0 .synthesizer with
          status := .success, result := some comp.text,
          usage := comp.usage, sources := comp.sources }
      | other => engines0 other
    match saveSession (some userId) (stockA ++ " vs " ++ stockB) finalEngines
        currentSessionId now locals ioFails with
    | (some newSession, _) =>
      some { session := some newSession,
             history := newSession :: history.filter (fun s =>
               decide (s.id ≠ newSession.id) && decide (s.symbol ≠ newSession.symbol)),
             currentSessionId := some newSession.id }
    | (none, _) =>
      some { session := none, history := history, currentSessionId := currentSessionId }

/-- C4 counterexample: in the comparison scenario on the input
"HDFCBANK vs ICICIBANK" with all calls succeeding, the saved session's
subject label is the wholly uppercased "HDFCBANK VS ICICIBANK" — not the
claimed "HDFCBANK vs ICICIBANK" (`saveSession` uppercases the label,
including the connective "vs"). -/
theorem claim_C4_counterexample :
    ((comparisonFlow "u1" "HDFCBANK vs ICICIBANK" buildInitialState
        ⟨"A-report", none, []⟩ ⟨"B-report", none, []⟩ ⟨"winner", none, []⟩
        [] none 1000 [] false).bind ComparisonOutcome.session).map AnalysisSession.symbol
      = some "HDFCBANK VS ICICIBANK" ∧
    "HDFCBANK VS ICICIBANK" ≠ "HDFCBANK vs ICICIBANK" := by
  decide

/-- C4 amended: for a comparison run on "HDFCBANK vs ICICIBANK" in which both
single-subject analyses and the comparison call succeed, started with no
loaded session (fresh closure id) and a history containing no entry colliding
with the new id or symbol: the saved session's subject label is
"HDFCBANK VS ICICIBANK" (the uppercased input), its id is the newly assigned
timestamp id, and the in-memory history grows by exactly one entry. -/
theorem claim_C4_amended (userId : String) (resA resB comp : EngineResponse)
    (history : List AnalysisSession) (now : Nat) (locals : List AnalysisSession)
    (hnoid : ∀ s ∈ history, s.id ≠ toString now)
    (hnosym : ∀ s ∈ history, s.symbol ≠ "HDFCBANK VS ICICIBANK") :
    (((comparisonFlow userId "HDFCBANK vs ICICIBANK" buildInitialState resA resB comp
        history none now locals false).bind ComparisonOutcome.session).map
          AnalysisSession.symbol = some "HDFCBANK VS ICICIBANK") ∧
    (((comparisonFlow userId "HDFCBANK vs ICICIBANK" buildInitialState resA resB comp
        history none now locals false).bind ComparisonOutcome.session).map
          AnalysisSession.id = some (toString now)) ∧
    ((comparisonFlow userId "HDFCBANK vs ICICIBANK" buildInitialState resA resB comp
        history none now locals false).map fun o => o.history.length)
      = some (history.length + 1) := by
  have hpv : parseVs "HDFCBANK vs ICICIBANK" = some ("HDFCBANK", "ICICIBANK") := by decide
  have hlabel : jsToUpperCase (jsToUpperCase (jsTrim "HDFCBANK") ++ " vs "
      ++ jsToUpperCase (jsTrim "ICICIBANK")) = "HDFCBANK VS ICICIBANK" := by decide
  have hfil : history.filter (fun s => decide (s.id ≠ toString now)
      && decide (s.symbol ≠ "HDFCBANK VS ICICIBANK")) = history := by
    refine List.filter_eq_self.mpr ?_
    intro s hs
    simp [hnoid s hs, hnosym s hs]
  refine ⟨?_, ?_, ?_⟩ <;>
    simp only [comparisonFlow, hpv, saveSession, Bool.false_eq_true, if_false, hlabel,
      Option.some_bind, Option.map_some', List.length_cons, Option.some.injEq, hfil]

/-- Witness for C4 amended at a concrete run with empty history. -/
theorem claim_C4_amended_witness :
    (((comparisonFlow "u1" "HDFCBANK vs ICICIBANK" buildInitialState
        ⟨"A", none, []⟩ ⟨"B", none, []⟩ ⟨"W", some ⟨1, 2, 3⟩, []⟩
        [] none 1000 [] false).bind ComparisonOutcome.session).map
          AnalysisSession.symbol = some "HDFCBANK VS ICICIBANK") ∧
    (((comparisonFlow "u1" "HDFCBANK vs ICICIBANK" buildInitialState
        ⟨"A", none, []⟩ ⟨"B", none, []⟩ ⟨"W", some ⟨1, 2, 3⟩, []⟩
        [] none 1000 [] false).bind ComparisonOutcome.session).map
          AnalysisSession.id = some (toString 1000)) ∧
    ((comparisonFlow "u1" "HDFCBANK vs ICICIBANK" buildInitialState
        ⟨"A", none, []⟩ ⟨"B", none, []⟩ ⟨"W", some ⟨1, 2, 3⟩, []⟩
        [] none 1000 [] false).map fun o => o.history.length)
      = some (List.length ([] : List AnalysisSession) + 1) :=
  claim_C4_amended "u1" ⟨"A", none, []⟩ ⟨"B", none, []⟩ ⟨"W", some ⟨1, 2, 3⟩, []⟩
    [] 1000 [] (by simp) (by simp)

end Vantage7
